import Mathlib

/-!
Verification of the HRGuideAI conversation session and message-synchronization
layer, shallowly embedded from the TypeScript sources:
  frontend/lib/api.ts              (Conversation Store API Client)
  frontend/hooks/useConversations.ts (Conversation Session Manager)
  useMessagePersistence hook       (Message Persistence Bridge)
  ChatInterface component          (Session Orchestrator)

Network calls are modelled by passing their results explicitly
(`Except String α` for fallible fetches, `HttpResponse α` for raw responses),
so every operation is a pure state transformer on the client-local session
state.  JavaScript's single-threaded run-to-completion semantics is used for
the latch claims: the synchronous prefix of an async function is atomic.
-/

namespace HRGuide

/-- `api.ts` interface `Conversation`. -/
structure Conversation where
  conversation_id : Nat
  user_id : Nat
  title : String
  thread_id : String
  created_at : String
  updated_at : String
  is_active : Bool
deriving DecidableEq, Repr

/-- Roles accepted by the store (`api.ts` `Message.role`). -/
inductive Role where
  | user | assistant | system | tool
deriving DecidableEq, Repr

/-- `api.ts` interface `MessageContent` (tool_calls omitted; never produced
by this layer). Metadata is modelled as an optional association list. -/
structure MessageContent where
  text : String
  metadata : Option (List (String × String))
deriving DecidableEq, Repr

/-- `api.ts` interface `Message`. -/
structure Message where
  message_id : Nat
  conversation_id : Nat
  role : Role
  content : MessageContent
  created_at : String
deriving DecidableEq, Repr

/-- The client-local state owned by `useConversations` (six `useState` cells). -/
structure SessionState where
  conversations : List Conversation
  currentConversation : Option Conversation
  currentThreadId : Option String
  messages : List Message
  isLoading : Bool
  error : Option String
deriving DecidableEq, Repr

/-- `useConversations.loadConversations(userId)`: sets loading, clears the
error, fetches; on success stores and returns the fetched list, on failure
records an error string and returns `[]`, leaving the stored list alone.
The fetch outcome is the `fetched` argument. Returns (returned value, state). -/
def loadConversations (fetched : Except String (List Conversation))
    (s : SessionState) : List Conversation × SessionState :=
  match fetched with
  | .ok convs =>
      (convs, { s with conversations := convs, error := none, isLoading := false })
  | .error _ =>
      ([], { s with error := some "Failed to load conversations", isLoading := false })

/-- `useConversations.createNewConversation(userId, title)`: calls the store
and returns the created conversation, re-throwing failures; it mutates no
list state (only loading/error flags). -/
def createNewConversation (created : Except String Conversation)
    (s : SessionState) : Except String Conversation × SessionState :=
  match created with
  | .ok resp => (.ok resp, { s with error := none, isLoading := false })
  | .error e =>
      (.error e, { s with error := some "Failed to create conversation", isLoading := false })

/-- Result of `selectConversation`: the new state, whether a message fetch
was performed, and whether the not-found warning was emitted. -/
structure SelectResult where
  state : SessionState
  fetchPerformed : Bool
  warned : Bool
deriving DecidableEq, Repr

/-- `useConversations.selectConversation(threadId)`.  `lookup` is the
`conversations` array captured by the callback's closure; at the moment the
callback is produced it equals the stored list (`s.conversations`), and a
caller that has since replaced the stored list within the same handler run
still holds the old closure.  Looks the thread up in `lookup`; if absent it
warns and returns (no fetch); if present it sets current conversation and
thread, then fetches messages (outcome `fetchMsgs`) and replaces local
messages, recording an error string on fetch failure.  The error cell is
cleared at entry in all cases (`setError(null)`). -/
def selectConversation (lookup : List Conversation) (threadId : String)
    (fetchMsgs : Except String (List Message)) (s : SessionState) : SelectResult :=
  let s0 : SessionState := { s with isLoading := true, error := none }
  match lookup.find? (fun c => c.thread_id == threadId) with
  | none =>
      { state := { s0 with isLoading := false }, fetchPerformed := false, warned := true }
  | some conv =>
      match fetchMsgs with
      | .ok msgs =>
          { state := { s0 with
              currentConversation := some conv,
              currentThreadId := some conv.thread_id,
              messages := msgs,
              isLoading := false },
            fetchPerformed := true, warned := false }
      | .error _ =>
          { state := { s0 with
              currentConversation := some conv,
              currentThreadId := some conv.thread_id,
              error := some "Failed to select conversation",
              isLoading := false },
            fetchPerformed := true, warned := false }

/-- `useConversations.deleteConversation(conversationId)`: store delete
(outcome `apiResult`), then drop the entry from the local list and clear
current conversation/thread/messages when the deleted entry was current;
on failure only an error string is recorded. -/
def deleteConversationM (conversationId : Nat) (apiResult : Except String Unit)
    (s : SessionState) : SessionState :=
  match apiResult with
  | .ok _ =>
      let s1 := { s with
        error := none,
        conversations := s.conversations.filter
          (fun c => c.conversation_id != conversationId) }
      match s.currentConversation with
      | some cur =>
          if cur.conversation_id == conversationId then
            { s1 with currentConversation := none, currentThreadId := none, messages := [] }
          else s1
      | none => s1
  | .error _ => { s with error := some "Failed to delete conversation" }

/-- `useConversations.updateConversationTitle(conversationId, newTitle)`:
store update (server reply `apiResult`); on success patches the matching
list entry and, when current, the current-conversation copy, with the
title the server returned; on failure records an error and re-throws. -/
def updateConversationTitle (conversationId : Nat)
    (apiResult : Except String Conversation) (s : SessionState) :
    Except String Unit × SessionState :=
  match apiResult with
  | .ok updated =>
      let s1 := { s with
        error := none,
        conversations := s.conversations.map (fun c =>
          if c.conversation_id == conversationId then
            { c with title := updated.title }
          else c) }
      match s.currentConversation with
      | some cur =>
          if cur.conversation_id == conversationId then
            (.ok (), { s1 with currentConversation := some { cur with title := updated.title } })
          else (.ok (), s1)
      | none => (.ok (), s1)
  | .error e =>
      (.error e, { s with error := some "Failed to update conversation title" })

/-- `useConversations.refreshMessages()`: no-op without a current
conversation; otherwise re-fetches (outcome `fetchMsgs`) and replaces local
messages, recording an error string on failure. -/
def refreshMessages (fetchMsgs : Except String (List Message))
    (s : SessionState) : SessionState :=
  match s.currentConversation with
  | none => s
  | some _ =>
      match fetchMsgs with
      | .ok msgs => { s with messages := msgs }
      | .error _ => { s with error := some "Failed to refresh messages" }

/-! ## Conversation Store API Client (`frontend/lib/api.ts`)

Each client function performs exactly one `fetch`; the raw outcome of that
single request is the `HttpResponse` argument (no retry is possible: the
function consumes one response and returns).  `statusText` is the HTTP
reason phrase. -/

/-- A raw HTTP response as seen by the client functions: the `ok` flag,
the status text, and the already-decoded JSON body for the success case. -/
structure HttpResponse (α : Type) where
  ok : Bool
  statusText : String
  body : α
deriving DecidableEq, Repr

/-- `api.ts createConversation`. -/
def createConversationApi (resp : HttpResponse Conversation) :
    Except String Conversation :=
  if resp.ok then .ok resp.body
  else .error ("Failed to create conversation: " ++ resp.statusText)

/-- `api.ts getUserConversations`. -/
def getUserConversationsApi (resp : HttpResponse (List Conversation)) :
    Except String (List Conversation) :=
  if resp.ok then .ok resp.body
  else .error ("Failed to fetch conversations: " ++ resp.statusText)

/-- `api.ts getConversation`. -/
def getConversationApi (resp : HttpResponse Conversation) :
    Except String Conversation :=
  if resp.ok then .ok resp.body
  else .error ("Failed to fetch conversation: " ++ resp.statusText)

/-- `api.ts getConversationByThreadId`. -/
def getConversationByThreadIdApi (resp : HttpResponse Conversation) :
    Except String Conversation :=
  if resp.ok then .ok resp.body
  else .error ("Failed to fetch conversation: " ++ resp.statusText)

/-- `api.ts updateConversation`. -/
def updateConversationApi (resp : HttpResponse Conversation) :
    Except String Conversation :=
  if resp.ok then .ok resp.body
  else .error ("Failed to update conversation: " ++ resp.statusText)

/-- `api.ts deleteConversation`. -/
def deleteConversationApi (resp : HttpResponse Unit) : Except String Unit :=
  if resp.ok then .ok ()
  else .error ("Failed to delete conversation: " ++ resp.statusText)

/-- `api.ts createMessage`.  Note the error is the fixed string
`"Failed to save message"`: unlike all the other client functions it does
not append `response.statusText`. -/
def createMessageApi (resp : HttpResponse Message) : Except String Message :=
  if resp.ok then .ok resp.body
  else .error "Failed to save message"

/-- `api.ts getMessages` (after the request was built with the given
`limit`/`offset` query parameters). -/
def getMessagesApi (resp : HttpResponse (List Message)) :
    Except String (List Message) :=
  if resp.ok then .ok resp.body
  else .error ("Failed to fetch messages: " ++ resp.statusText)

/-- `api.ts getMessageCount`. -/
def getMessageCountApi (resp : HttpResponse Nat) : Except String Nat :=
  if resp.ok then .ok resp.body
  else .error ("Failed to fetch message count: " ++ resp.statusText)

/-- `api.ts deleteMessage`. -/
def deleteMessageApi (resp : HttpResponse Unit) : Except String Unit :=
  if resp.ok then .ok ()
  else .error ("Failed to delete message: " ++ resp.statusText)

/-- `api.ts deleteAllMessages`. -/
def deleteAllMessagesApi (resp : HttpResponse Unit) : Except String Unit :=
  if resp.ok then .ok ()
  else .error ("Failed to delete messages: " ++ resp.statusText)

/-- Default `limit` parameter of `api.ts getMessages`. -/
def getMessagesDefaultLimit : Nat := 100

/-- Default `offset` parameter of `api.ts getMessages`. -/
def getMessagesDefaultOffset : Nat := 0

/-- Modelled from the spec: the remote `GET /messages/{conversationId}`
endpoint is an external collaborator (its code is not part of this layer);
per the spec it returns the conversation's messages ascending by creation
order, honouring `limit` and `offset`. -/
def storeListMessages (persisted : List Message) (limit offset : Nat) :
    List Message :=
  (persisted.drop offset).take limit

/-- The message list the session manager receives when it calls
`getMessages(conv.conversation_id)` with no explicit limit/offset
(both `selectConversation` and `refreshMessages` do exactly this):
the store applies the defaults `limit = 100`, `offset = 0`. -/
def fetchMessagesDefault (persisted : List Message) : List Message :=
  storeListMessages persisted getMessagesDefaultLimit getMessagesDefaultOffset

/-! ## Message Persistence Bridge (`useMessagePersistence`)

The bridge observes the external widget stream.  A stream message carries an
optional id, a free-form role string, and its (already text-normalised)
content.  The per-thread tracker is the `savedMessageIds` set plus the
`isInitialLoad` flag, both cleared when the conversation changes.  A persist
attempt is an `await createMessage(...)`; its success or failure is given by
the oracle `persistOk`. -/

/-- A message of the external widget stream (`useCopilotMessagesContext`). -/
structure StreamMessage where
  id : Option String
  role : String
  content : String
deriving DecidableEq, Repr

/-- The payload the bridge sends to `createMessage`: role mapped to
`assistant` or `user`, the text content, and metadata tagging the stream
message id and a capture timestamp (`now`). -/
structure PersistPayload where
  conversation_id : Nat
  role : String
  text : String
  copilot_message_id : String
  timestamp : String
deriving DecidableEq, Repr

/-- Builds the `createMessage` payload for stream message `m` with id `i`. -/
def mkPayload (cid : Nat) (now : String) (m : StreamMessage) (i : String) :
    PersistPayload :=
  { conversation_id := cid
    role := if m.role == "assistant" then "assistant" else "user"
    text := m.content
    copilot_message_id := i
    timestamp := now }

/-- The per-thread persistence tracker: `savedMessageIds` (as a list used
for membership only) and the `isInitialLoad` flag. -/
structure Tracker where
  seen : List String
  isInitialLoad : Bool
deriving DecidableEq, Repr

/-- Tracker state right after a conversation change (`useEffect` on
`conversationId`: clear the set, set `isInitialLoad`). -/
def resetTracker : Tracker :=
  { seen := [], isInitialLoad := true }

/-- Outcome of one pass: the seen set after the pass, the messages for
which a persist call was made (in the order the calls were issued), and
the successfully persisted payloads (in the same order). -/
structure PassResult where
  seen : List String
  attempted : List StreamMessage
  persisted : List PersistPayload
deriving DecidableEq, Repr

/-- The `saveNewMessages` loop: walks the stream in order; a message with
no id or an already-seen id is skipped; a system message is marked seen
without a persist call; otherwise `createMessage` is called and the id is
added to the seen set only when that call succeeds — a failure leaves the
id unseen and the loop continues with the next message. -/
def saveNewMessages (cid : Nat) (now : String)
    (persistOk : StreamMessage → Bool) :
    List StreamMessage → List String → PassResult
  | [], seen => { seen := seen, attempted := [], persisted := [] }
  | m :: rest, seen =>
      match m.id with
      | none => saveNewMessages cid now persistOk rest seen
      | some i =>
          if seen.contains i then
            saveNewMessages cid now persistOk rest seen
          else if m.role == "system" then
            saveNewMessages cid now persistOk rest (i :: seen)
          else if persistOk m then
            let r := saveNewMessages cid now persistOk rest (i :: seen)
            { r with
                attempted := m :: r.attempted,
                persisted := mkPayload cid now m i :: r.persisted }
          else
            let r := saveNewMessages cid now persistOk rest seen
            { r with attempted := m :: r.attempted }

/-- Outcome of one activation of the bridge effect: the tracker after the
pass plus what was attempted/persisted. -/
structure BridgeResult where
  tracker : Tracker
  attempted : List StreamMessage
  persisted : List PersistPayload
deriving DecidableEq, Repr

/-- One run of the bridge's stream-observation effect: nothing happens when
disabled, without a conversation id, or on an empty stream; on the first
activation for a conversation (snapshot phase) every currently-present
stream message id is marked seen, the snapshot phase is exited, and nothing
is persisted; afterwards `saveNewMessages` runs. -/
def bridgePass (enabled : Bool) (conversationId : Option Nat) (now : String)
    (persistOk : StreamMessage → Bool) (stream : List StreamMessage)
    (tr : Tracker) : BridgeResult :=
  if !enabled then { tracker := tr, attempted := [], persisted := [] }
  else
    match conversationId with
    | none => { tracker := tr, attempted := [], persisted := [] }
    | some cid =>
        if stream.isEmpty then { tracker := tr, attempted := [], persisted := [] }
        else if tr.isInitialLoad then
          { tracker := { seen := tr.seen ++ stream.filterMap (·.id),
                         isInitialLoad := false },
            attempted := [], persisted := [] }
        else
          let r := saveNewMessages cid now persistOk stream tr.seen
          { tracker := { seen := r.seen, isInitialLoad := tr.isInitialLoad },
            attempted := r.attempted, persisted := r.persisted }

/-! ## Session Orchestrator (`ChatInterface`)

The auto-create effect's body runs to completion up to its first `await`
(JavaScript event-loop semantics), so that synchronous prefix is modelled
as one atomic step on the guard latch `autoCreateRef`.  Two concurrent
triggers are two sequential executions of the prefix followed by the
asynchronous completions in either order. -/

/-- The synchronous prefix of `autoCreateConversation`: evaluates the guard
conditions and, when they all pass, sets the latch before the first await
and commits to creating.  Returns (latch after the prefix, whether the
creation flow was started). -/
def autoCreatePrefix (userPresent loading : Bool) (convsEmpty noThread : Bool)
    (latch : Bool) : Bool × Bool :=
  if !userPresent then (latch, false)
  else if loading then (latch, false)
  else if latch then (latch, false)
  else if convsEmpty && noThread then (true, true)
  else (latch, false)

/-- The asynchronous completion of a started auto-create flow: on failure
(the `catch` branch) the latch is cleared to allow a retry; on success it
is left as set. -/
def autoCreateCompletion (success : Bool) (latch : Bool) : Bool :=
  if success then latch else false

/-- Two concurrent firings of the auto-create trigger with the same guard
inputs: the two synchronous prefixes run back to back (run-to-completion),
the second seeing the latch the first left.  Returns the final latch and
the number of creation flows started. -/
def autoCreateDoubleTrigger (userPresent loading convsEmpty noThread
    latch : Bool) : Bool × Nat :=
  let p1 := autoCreatePrefix userPresent loading convsEmpty noThread latch
  let p2 := autoCreatePrefix userPresent loading convsEmpty noThread p1.1
  (p2.1, (if p1.2 then 1 else 0) + (if p2.2 then 1 else 0))

/-- `ChatInterface.handleNewConversation` on the all-success path:
create via the manager (store reply `created`), reload the list (store
reply `reloaded`), then select the new thread.  `closureConvs` is the
`conversations` array captured by the `selectConversation` callback in
scope when the handler ran (the pre-reload render's list).  One
`createConversation` store call is made. -/
def handleNewConversationOk (closureConvs : List Conversation)
    (created : Conversation) (reloaded : List Conversation)
    (fetchedMsgs : List Message) (s : SessionState) : SessionState :=
  let s1 := (createNewConversation (.ok created) s).2
  let s2 := (loadConversations (.ok reloaded) s1).2
  (selectConversation closureConvs created.thread_id (.ok fetchedMsgs) s2).state

/-- `ChatInterface.handleDeleteConversation` with all store calls
succeeding.  Computes whether the deleted conversation is the current one
(match on both `conversation_id` and `currentThreadId`), deletes via the
manager, and, when the current one was deleted: selects the head of the
remaining render-time list if any remain, else (with a logged-in user)
runs `handleNewConversation` once.  Returns the final state and the number
of `createConversation` store calls made. -/
def handleDeleteConversation (userPresent : Bool) (conversationId : Nat)
    (created : Conversation) (reloaded : List Conversation)
    (fetchedMsgs : List Message) (s : SessionState) : SessionState × Nat :=
  let closure := s.conversations
  let deletingCurrent := closure.find? (fun c =>
    c.conversation_id == conversationId &&
      some c.thread_id == s.currentThreadId)
  let s1 := deleteConversationM conversationId (.ok ()) s
  match deletingCurrent with
  | none => (s1, 0)
  | some _ =>
      let remaining := closure.filter (fun c => c.conversation_id != conversationId)
      match remaining with
      | r :: _ =>
          ((selectConversation closure r.thread_id (.ok fetchedMsgs) s1).state, 0)
      | [] =>
          if userPresent then
            (handleNewConversationOk closure created reloaded fetchedMsgs s1, 1)
          else (s1, 0)

/-! ## Theorems -/

/-- C1: the auto-create guard latch is set in the same synchronous step
that starts the creation flow (latch after the prefix = old latch OR
"creation started"), a set latch makes the prefix a no-op, the completion
clears the latch only on failure and keeps it on success, and two
concurrent triggers from an unset latch in the login-and-empty state start
exactly one creation flow. -/
theorem autoCreate_latch_exactly_once :
    (∀ u l e n latch, (autoCreatePrefix u l e n latch).1
        = (latch || (autoCreatePrefix u l e n latch).2)) ∧
    (∀ u l e n, autoCreatePrefix u l e n true = (true, false)) ∧
    (∀ latch, autoCreateCompletion false latch = false) ∧
    (∀ latch, autoCreateCompletion true latch = latch) ∧
    (autoCreateDoubleTrigger true false true true false).2 = 1 := by
  refine ⟨?_, ?_, ?_, ?_, rfl⟩ <;> decide

/-- C2: `loadConversations` on success stores the freshly fetched list and
returns that same list (returned value = stored list immediately after
resolution); on failure it leaves the stored list unchanged, records the
error string, and returns the empty list. -/
theorem loadConversations_spec :
    (∀ (l : List Conversation) (s : SessionState),
        (loadConversations (.ok l) s).1 = l ∧
        (loadConversations (.ok l) s).2.conversations = l ∧
        (loadConversations (.ok l) s).1 =
          (loadConversations (.ok l) s).2.conversations) ∧
    (∀ (e : String) (s : SessionState),
        (loadConversations (.error e) s).1 = [] ∧
        (loadConversations (.error e) s).2.conversations = s.conversations ∧
        (loadConversations (.error e) s).2.error =
          some "Failed to load conversations") := by
  exact ⟨fun l s => ⟨rfl, rfl, rfl⟩, fun e s => ⟨rfl, rfl, rfl⟩⟩

/-- C6 counterexample: selecting an absent thread does NOT leave the error
cell unchanged — `selectConversation` clears the error to `none` at entry,
so a previously recorded error string is lost even in the absent case. -/
theorem selectConversation_missing_changes_error :
    (selectConversation [] "t1" (.ok [])
        { conversations := [], currentConversation := none,
          currentThreadId := none, messages := [], isLoading := false,
          error := some "Failed to load conversations" }).state.error = none ∧
    (some "Failed to load conversations" : Option String) ≠ none := by
  exact ⟨rfl, by decide⟩

/-- C6 (amended): selecting a thread absent from the manager's list warns,
performs no message fetch, and leaves the conversation list, current
conversation, current thread and messages unchanged; the error cell is
cleared to `none` (as on every `selectConversation` entry) and the loading
flag ends false. -/
theorem selectConversation_missing_spec (threadId : String)
    (fetch : Except String (List Message)) (s : SessionState)
    (h : s.conversations.find? (fun c => c.thread_id == threadId) = none) :
    (selectConversation s.conversations threadId fetch s).warned = true ∧
    (selectConversation s.conversations threadId fetch s).fetchPerformed = false ∧
    (selectConversation s.conversations threadId fetch s).state =
      { s with error := none, isLoading := false } := by
  simp [selectConversation, h]

/-- C6 witness: concrete run of the absent-thread case. -/
theorem selectConversation_missing_spec_witness :
    (selectConversation ([] : List Conversation) "t1" (.ok [])
        { conversations := [], currentConversation := none,
          currentThreadId := none, messages := [], isLoading := false,
          error := none }).warned = true ∧
    (selectConversation ([] : List Conversation) "t1" (.ok [])
        { conversations := [], currentConversation := none,
          currentThreadId := none, messages := [], isLoading := false,
          error := none }).fetchPerformed = false ∧
    (selectConversation ([] : List Conversation) "t1" (.ok [])
        { conversations := [], currentConversation := none,
          currentThreadId := none, messages := [], isLoading := false,
          error := none }).state =
      { conversations := [], currentConversation := none,
        currentThreadId := none, messages := [], isLoading := false,
        error := none } :=
  selectConversation_missing_spec "t1" (.ok [])
    { conversations := [], currentConversation := none,
      currentThreadId := none, messages := [], isLoading := false,
      error := none } rfl

/-- C9 counterexample: `createMessage`'s failure error is the fixed string
`"Failed to save message"` — two failing responses with different HTTP
status texts produce the identical error, so the error carries no HTTP
status/reason, contradicting the claim for the create-message function. -/
theorem createMessage_error_lacks_status :
    createMessageApi
        { ok := false, statusText := "Internal Server Error",
          body := { message_id := 1, conversation_id := 1, role := .user,
                    content := { text := "hi", metadata := none },
                    created_at := "" } } =
      createMessageApi
        { ok := false, statusText := "Bad Gateway",
          body := { message_id := 1, conversation_id := 1, role := .user,
                    content := { text := "hi", metadata := none },
                    created_at := "" } } ∧
    createMessageApi
        { ok := false, statusText := "Internal Server Error",
          body := { message_id := 1, conversation_id := 1, role := .user,
                    content := { text := "hi", metadata := none },
                    created_at := "" } } =
      .error "Failed to save message" ∧
    ("Internal Server Error" : String) ≠ "Bad Gateway" := by
  exact ⟨rfl, rfl, by decide⟩

/-- C9 (amended): every store-client function fails (with no retry — each
consumes exactly one response) whenever the response is not ok; every
function except `createMessage` fails with an error carrying the HTTP
status text, while `createMessage` fails with the fixed string
`"Failed to save message"` that carries no status/reason; on an ok
response each returns the body. -/
theorem apiClient_error_spec :
    (∀ (st : String) (b : Conversation),
        createConversationApi ⟨false, st, b⟩ =
            .error ("Failed to create conversation: " ++ st) ∧
          createConversationApi ⟨true, st, b⟩ = .ok b ∧
          getConversationApi ⟨false, st, b⟩ =
            .error ("Failed to fetch conversation: " ++ st) ∧
          getConversationApi ⟨true, st, b⟩ = .ok b ∧
          getConversationByThreadIdApi ⟨false, st, b⟩ =
            .error ("Failed to fetch conversation: " ++ st) ∧
          getConversationByThreadIdApi ⟨true, st, b⟩ = .ok b ∧
          updateConversationApi ⟨false, st, b⟩ =
            .error ("Failed to update conversation: " ++ st) ∧
          updateConversationApi ⟨true, st, b⟩ = .ok b) ∧
    (∀ (st : String) (b : List Conversation),
        getUserConversationsApi ⟨false, st, b⟩ =
            .error ("Failed to fetch conversations: " ++ st) ∧
          getUserConversationsApi ⟨true, st, b⟩ = .ok b) ∧
    (∀ (st : String),
        deleteConversationApi ⟨false, st, ()⟩ =
            .error ("Failed to delete conversation: " ++ st) ∧
          deleteConversationApi ⟨true, st, ()⟩ = .ok () ∧
          deleteMessageApi ⟨false, st, ()⟩ =
            .error ("Failed to delete message: " ++ st) ∧
          deleteMessageApi ⟨true, st, ()⟩ = .ok () ∧
          deleteAllMessagesApi ⟨false, st, ()⟩ =
            .error ("Failed to delete messages: " ++ st) ∧
          deleteAllMessagesApi ⟨true, st, ()⟩ = .ok ()) ∧
    (∀ (st : String) (b : List Message),
        getMessagesApi ⟨false, st, b⟩ =
            .error ("Failed to fetch messages: " ++ st) ∧
          getMessagesApi ⟨true, st, b⟩ = .ok b) ∧
    (∀ (st : String) (n : Nat),
        getMessageCountApi ⟨false, st, n⟩ =
            .error ("Failed to fetch message count: " ++ st) ∧
          getMessageCountApi ⟨true, st, n⟩ = .ok n) ∧
    (∀ (st : String) (b : Message),
        createMessageApi ⟨false, st, b⟩ = .error "Failed to save message" ∧
          createMessageApi ⟨true, st, b⟩ = .ok b) := by
  refine ⟨fun st b => ?_, fun st b => ?_, fun st => ?_, fun st b => ?_,
    fun st n => ?_, fun st b => ?_⟩ <;>
    simp [createConversationApi, getConversationApi,
      getConversationByThreadIdApi, updateConversationApi,
      getUserConversationsApi, deleteConversationApi, deleteMessageApi,
      deleteAllMessagesApi, getMessagesApi, getMessageCountApi,
      createMessageApi]

/-- C7: a successful rename (the store echoing the new title back) patches
exactly the matching list entry with the new title — the list is a
pointwise patch of the old list, no reload — and patches the
current-conversation copy exactly when its id is the renamed one; messages
and current thread are untouched. -/
theorem updateConversationTitle_spec (conversationId : Nat) (newTitle : String)
    (updated : Conversation) (s : SessionState) (h : updated.title = newTitle) :
    (updateConversationTitle conversationId (.ok updated) s).2.conversations =
      s.conversations.map (fun c =>
        if c.conversation_id = conversationId then { c with title := newTitle }
        else c) ∧
    (updateConversationTitle conversationId (.ok updated) s).2.currentConversation =
      s.currentConversation.map (fun cur =>
        if cur.conversation_id = conversationId then { cur with title := newTitle }
        else cur) ∧
    (updateConversationTitle conversationId (.ok updated) s).2.messages =
      s.messages ∧
    (updateConversationTitle conversationId (.ok updated) s).2.currentThreadId =
      s.currentThreadId := by
  subst h
  unfold updateConversationTitle
  cases hc : s.currentConversation with
  | none => simp
  | some cur =>
      by_cases hid : cur.conversation_id = conversationId <;>
        simp [hid]

/-- C7 witness: renaming conversation 1 (of two) while it is current. -/
theorem updateConversationTitle_spec_witness :
    (updateConversationTitle 1 (.ok
        { conversation_id := 1, user_id := 7, title := "X", thread_id := "t1",
          created_at := "c", updated_at := "u", is_active := true })
        { conversations :=
            [{ conversation_id := 1, user_id := 7, title := "old",
               thread_id := "t1", created_at := "c", updated_at := "u",
               is_active := true },
             { conversation_id := 2, user_id := 7, title := "other",
               thread_id := "t2", created_at := "c", updated_at := "u",
               is_active := true }],
          currentConversation := some
            { conversation_id := 1, user_id := 7, title := "old",
              thread_id := "t1", created_at := "c", updated_at := "u",
              is_active := true },
          currentThreadId := some "t1", messages := [], isLoading := false,
          error := none }).2.conversations =
      [{ conversation_id := 1, user_id := 7, title := "old", thread_id := "t1",
         created_at := "c", updated_at := "u", is_active := true },
       { conversation_id := 2, user_id := 7, title := "other", thread_id := "t2",
         created_at := "c", updated_at := "u", is_active := true }].map
        (fun c => if c.conversation_id = 1 then { c with title := "X" } else c) ∧
    (updateConversationTitle 1 (.ok
        { conversation_id := 1, user_id := 7, title := "X", thread_id := "t1",
          created_at := "c", updated_at := "u", is_active := true })
        { conversations :=
            [{ conversation_id := 1, user_id := 7, title := "old",
               thread_id := "t1", created_at := "c", updated_at := "u",
               is_active := true },
             { conversation_id := 2, user_id := 7, title := "other",
               thread_id := "t2", created_at := "c", updated_at := "u",
               is_active := true }],
          currentConversation := some
            { conversation_id := 1, user_id := 7, title := "old",
              thread_id := "t1", created_at := "c", updated_at := "u",
              is_active := true },
          currentThreadId := some "t1", messages := [], isLoading := false,
          error := none }).2.currentConversation =
      (some { conversation_id := 1, user_id := 7, title := "old",
              thread_id := "t1", created_at := "c", updated_at := "u",
              is_active := true } : Option Conversation).map
        (fun cur => if cur.conversation_id = 1 then { cur with title := "X" }
                    else cur) ∧
    (updateConversationTitle 1 (.ok
        { conversation_id := 1, user_id := 7, title := "X", thread_id := "t1",
          created_at := "c", updated_at := "u", is_active := true })
        { conversations :=
            [{ conversation_id := 1, user_id := 7, title := "old",
               thread_id := "t1", created_at := "c", updated_at := "u",
               is_active := true },
             { conversation_id := 2, user_id := 7, title := "other",
               thread_id := "t2", created_at := "c", updated_at := "u",
               is_active := true }],
          currentConversation := some
            { conversation_id := 1, user_id := 7, title := "old",
              thread_id := "t1", created_at := "c", updated_at := "u",
              is_active := true },
          currentThreadId := some "t1", messages := [], isLoading := false,
          error := none }).2.messages = [] ∧
    (updateConversationTitle 1 (.ok
        { conversation_id := 1, user_id := 7, title := "X", thread_id := "t1",
          created_at := "c", updated_at := "u", is_active := true })
        { conversations :=
            [{ conversation_id := 1, user_id := 7, title := "old",
               thread_id := "t1", created_at := "c", updated_at := "u",
               is_active := true },
             { conversation_id := 2, user_id := 7, title := "other",
               thread_id := "t2", created_at := "c", updated_at := "u",
               is_active := true }],
          currentConversation := some
            { conversation_id := 1, user_id := 7, title := "old",
              thread_id := "t1", created_at := "c", updated_at := "u",
              is_active := true },
          currentThreadId := some "t1", messages := [], isLoading := false,
          error := none }).2.currentThreadId = some "t1" :=
  updateConversationTitle_spec 1 "X"
    { conversation_id := 1, user_id := 7, title := "X", thread_id := "t1",
      created_at := "c", updated_at := "u", is_active := true }
    { conversations :=
        [{ conversation_id := 1, user_id := 7, title := "old",
           thread_id := "t1", created_at := "c", updated_at := "u",
           is_active := true },
         { conversation_id := 2, user_id := 7, title := "other",
           thread_id := "t2", created_at := "c", updated_at := "u",
           is_active := true }],
      currentConversation := some
        { conversation_id := 1, user_id := 7, title := "old",
          thread_id := "t1", created_at := "c", updated_at := "u",
          is_active := true },
      currentThreadId := some "t1", messages := [], isLoading := false,
      error := none } rfl

/-- A sample persisted message, for concrete instantiations. -/
def sampleMsg : Message :=
  { message_id := 1, conversation_id := 1, role := .user,
    content := { text := "hi", metadata := none }, created_at := "t" }

/-- A sample conversation, for concrete instantiations. -/
def sampleConv : Conversation :=
  { conversation_id := 1, user_id := 7, title := "New Conversation",
    thread_id := "t1", created_at := "c", updated_at := "u", is_active := true }

/-- A sample session state with `sampleConv` loaded and current. -/
def sampleState : SessionState :=
  { conversations := [sampleConv], currentConversation := some sampleConv,
    currentThreadId := some "t1", messages := [], isLoading := false,
    error := none }

/-- C10: the session manager always fetches messages with the store
client's defaults (limit 100, offset 0), so after any `selectConversation`
that finds its thread, and after any `refreshMessages` with a current
conversation, the local message state is the first 100 persisted messages;
a conversation with more than 100 persisted messages is loaded truncated. -/
theorem messages_loaded_truncated :
    (∀ persisted : List Message,
        fetchMessagesDefault persisted = persisted.take 100) ∧
    (∀ persisted : List Message,
        (fetchMessagesDefault persisted).length ≤ 100) ∧
    (∀ (lookup : List Conversation) (threadId : String) (conv : Conversation)
        (persisted : List Message) (s : SessionState),
        lookup.find? (fun c => c.thread_id == threadId) = some conv →
        (selectConversation lookup threadId
            (.ok (fetchMessagesDefault persisted)) s).state.messages =
          persisted.take 100) ∧
    (∀ (persisted : List Message) (cur : Conversation) (s : SessionState),
        s.currentConversation = some cur →
        (refreshMessages (.ok (fetchMessagesDefault persisted)) s).messages =
          persisted.take 100) ∧
    (∀ persisted : List Message, 100 < persisted.length →
        fetchMessagesDefault persisted ≠ persisted) := by
  have hdef : ∀ persisted : List Message,
      fetchMessagesDefault persisted = persisted.take 100 := by
    intro persisted
    simp [fetchMessagesDefault, storeListMessages, getMessagesDefaultLimit,
      getMessagesDefaultOffset]
  refine ⟨hdef, ?_, ?_, ?_, ?_⟩
  · intro persisted
    rw [hdef]
    exact persisted.length_take_le 100
  · intro lookup threadId conv persisted s h
    simp [selectConversation, h, hdef]
  · intro persisted cur s h
    simp [refreshMessages, h, hdef]
  · intro persisted hlen heq
    have := congrArg List.length heq
    rw [hdef] at this
    simp [List.length_take] at this
    omega

/-- C10 witness: a conversation with 101 persisted messages is loaded as
its first 100 messages, both on selection and on refresh. -/
theorem messages_loaded_truncated_witness :
    (selectConversation [sampleConv] "t1"
        (.ok (fetchMessagesDefault (List.replicate 101 sampleMsg)))
        sampleState).state.messages = (List.replicate 101 sampleMsg).take 100 ∧
    (refreshMessages (.ok (fetchMessagesDefault (List.replicate 101 sampleMsg)))
        sampleState).messages = (List.replicate 101 sampleMsg).take 100 ∧
    fetchMessagesDefault (List.replicate 101 sampleMsg) ≠
      List.replicate 101 sampleMsg :=
  ⟨messages_loaded_truncated.2.2.1 [sampleConv] "t1" sampleConv
      (List.replicate 101 sampleMsg) sampleState rfl,
   messages_loaded_truncated.2.2.2.1 (List.replicate 101 sampleMsg)
      sampleConv sampleState rfl,
   messages_loaded_truncated.2.2.2.2 (List.replicate 101 sampleMsg)
      (by simp)⟩

/-! ### Unfolding equations for the `saveNewMessages` loop -/

theorem snm_nil (cid : Nat) (now : String) (pOk : StreamMessage → Bool)
    (seen : List String) :
    saveNewMessages cid now pOk [] seen =
      { seen := seen, attempted := [], persisted := [] } := rfl

theorem snm_cons_none (cid : Nat) (now : String) (pOk : StreamMessage → Bool)
    (m : StreamMessage) (rest : List StreamMessage) (seen : List String)
    (h : m.id = none) :
    saveNewMessages cid now pOk (m :: rest) seen =
      saveNewMessages cid now pOk rest seen := by
  simp [saveNewMessages, h]

theorem snm_cons_seen (cid : Nat) (now : String) (pOk : StreamMessage → Bool)
    (m : StreamMessage) (rest : List StreamMessage) (seen : List String)
    (i : String) (h : m.id = some i) (hc : i ∈ seen) :
    saveNewMessages cid now pOk (m :: rest) seen =
      saveNewMessages cid now pOk rest seen := by
  simp [saveNewMessages, h, List.elem_iff, hc]

theorem snm_cons_system (cid : Nat) (now : String) (pOk : StreamMessage → Bool)
    (m : StreamMessage) (rest : List StreamMessage) (seen : List String)
    (i : String) (h : m.id = some i) (hc : i ∉ seen) (hs : m.role = "system") :
    saveNewMessages cid now pOk (m :: rest) seen =
      saveNewMessages cid now pOk rest (i :: seen) := by
  simp [saveNewMessages, h, List.elem_iff, hc, hs]

theorem snm_cons_ok (cid : Nat) (now : String) (pOk : StreamMessage → Bool)
    (m : StreamMessage) (rest : List StreamMessage) (seen : List String)
    (i : String) (h : m.id = some i) (hc : i ∉ seen) (hs : m.role ≠ "system")
    (hok : pOk m = true) :
    saveNewMessages cid now pOk (m :: rest) seen =
      { saveNewMessages cid now pOk rest (i :: seen) with
          attempted := m :: (saveNewMessages cid now pOk rest (i :: seen)).attempted,
          persisted :=
            mkPayload cid now m i ::
              (saveNewMessages cid now pOk rest (i :: seen)).persisted } := by
  simp [saveNewMessages, h, List.elem_iff, hc, hs, hok]

theorem snm_cons_fail (cid : Nat) (now : String) (pOk : StreamMessage → Bool)
    (m : StreamMessage) (rest : List StreamMessage) (seen : List String)
    (i : String) (h : m.id = some i) (hc : i ∉ seen) (hs : m.role ≠ "system")
    (hok : pOk m = false) :
    saveNewMessages cid now pOk (m :: rest) seen =
      { saveNewMessages cid now pOk rest seen with
          attempted := m :: (saveNewMessages cid now pOk rest seen).attempted } := by
  simp [saveNewMessages, h, List.elem_iff, hc, hs, hok]

/-! ### Structural lemmas about one pass -/

/-- The seen set only grows during a pass. -/
theorem snm_seen_mono (cid : Nat) (now : String) (pOk : StreamMessage → Bool) :
    ∀ (l : List StreamMessage) (seen : List String) (i : String),
      i ∈ seen → i ∈ (saveNewMessages cid now pOk l seen).seen := by
  intro l
  induction l with
  | nil => intro seen i h; simpa [snm_nil] using h
  | cons m rest ih =>
      intro seen i h
      cases hid : m.id with
      | none => rw [snm_cons_none cid now pOk m rest seen hid]; exact ih seen i h
      | some j =>
          by_cases hc : j ∈ seen
          · rw [snm_cons_seen cid now pOk m rest seen j hid hc]; exact ih seen i h
          · by_cases hs : m.role = "system"
            · rw [snm_cons_system cid now pOk m rest seen j hid hc hs]
              exact ih _ i (List.mem_cons_of_mem _ h)
            · cases hok : pOk m with
              | true =>
                  rw [snm_cons_ok cid now pOk m rest seen j hid hc hs hok]
                  exact ih _ i (List.mem_cons_of_mem _ h)
              | false =>
                  rw [snm_cons_fail cid now pOk m rest seen j hid hc hs hok]
                  exact ih seen i h

/-- Every id in the pass's final seen set was already seen or is the id of
some stream message of the pass. -/
theorem snm_seen_subset (cid : Nat) (now : String) (pOk : StreamMessage → Bool) :
    ∀ (l : List StreamMessage) (seen : List String) (i : String),
      i ∈ (saveNewMessages cid now pOk l seen).seen →
      i ∈ seen ∨ i ∈ l.filterMap (·.id) := by
  intro l
  induction l with
  | nil => intro seen i h; exact .inl (by simpa [snm_nil] using h)
  | cons m rest ih =>
      intro seen i h
      have step : i ∈ seen ∨ i ∈ rest.filterMap (·.id) →
          i ∈ seen ∨ i ∈ (m :: rest).filterMap (·.id) := by
        rintro (h' | h')
        · exact .inl h'
        · right
          rcases List.mem_filterMap.mp h' with ⟨a, ha, hai⟩
          exact List.mem_filterMap.mpr ⟨a, List.mem_cons_of_mem _ ha, hai⟩
      cases hid : m.id with
      | none =>
          rw [snm_cons_none cid now pOk m rest seen hid] at h
          exact step (ih seen i h)
      | some j =>
          have hjmem : j ∈ (m :: rest).filterMap (·.id) :=
            List.mem_filterMap.mpr ⟨m, List.mem_cons_self m rest, hid⟩
          by_cases hc : j ∈ seen
          · rw [snm_cons_seen cid now pOk m rest seen j hid hc] at h
            exact step (ih seen i h)
          · by_cases hs : m.role = "system"
            · rw [snm_cons_system cid now pOk m rest seen j hid hc hs] at h
              rcases ih _ i h with h' | h'
              · rcases List.mem_cons.mp h' with rfl | h''
                · exact .inr hjmem
                · exact .inl h''
              · exact step (.inr h')
            · cases hok : pOk m with
              | true =>
                  rw [snm_cons_ok cid now pOk m rest seen j hid hc hs hok] at h
                  rcases ih _ i h with h' | h'
                  · rcases List.mem_cons.mp h' with rfl | h''
                    · exact .inr hjmem
                    · exact .inl h''
                  · exact step (.inr h')
              | false =>
                  rw [snm_cons_fail cid now pOk m rest seen j hid hc hs hok] at h
                  exact step (ih seen i h)

/-- A message for which a persist call is made has an id that was not in
the seen set the pass started from. -/
theorem snm_attempted_fresh (cid : Nat) (now : String)
    (pOk : StreamMessage → Bool) :
    ∀ (l : List StreamMessage) (seen : List String) (m' : StreamMessage)
      (i : String), m' ∈ (saveNewMessages cid now pOk l seen).attempted →
      m'.id = some i → i ∉ seen := by
  intro l
  induction l with
  | nil => intro seen m' i h; simp [snm_nil] at h
  | cons m rest ih =>
      intro seen m' i h hm'
      cases hid : m.id with
      | none =>
          rw [snm_cons_none cid now pOk m rest seen hid] at h
          exact ih seen m' i h hm'
      | some j =>
          by_cases hc : j ∈ seen
          · rw [snm_cons_seen cid now pOk m rest seen j hid hc] at h
            exact ih seen m' i h hm'
          · by_cases hs : m.role = "system"
            · rw [snm_cons_system cid now pOk m rest seen j hid hc hs] at h
              intro hmem
              exact ih _ m' i h hm' (List.mem_cons_of_mem _ hmem)
            · cases hok : pOk m with
              | true =>
                  rw [snm_cons_ok cid now pOk m rest seen j hid hc hs hok] at h
                  rcases List.mem_cons.mp h with rfl | h'
                  · rw [hid] at hm'
                    cases hm'
                    exact hc
                  · intro hmem
                    exact ih _ m' i h' hm' (List.mem_cons_of_mem _ hmem)
              | false =>
                  rw [snm_cons_fail cid now pOk m rest seen j hid hc hs hok] at h
                  rcases List.mem_cons.mp h with rfl | h'
                  · rw [hid] at hm'
                    cases hm'
                    exact hc
                  · exact ih seen m' i h' hm'

/-- When every persist call of the pass succeeds, every id present in the
stream ends up in the final seen set. -/
theorem snm_all_seen_of_ok (cid : Nat) (now : String)
    (pOk : StreamMessage → Bool) :
    ∀ (l : List StreamMessage) (seen : List String),
      (∀ m ∈ l, pOk m = true) →
      ∀ m' ∈ l, ∀ i, m'.id = some i →
        i ∈ (saveNewMessages cid now pOk l seen).seen := by
  intro l
  induction l with
  | nil => intro seen _ m' h; simp at h
  | cons m rest ih =>
      intro seen hok m' hm' i hi
      have hokrest : ∀ a ∈ rest, pOk a = true :=
        fun a ha => hok a (List.mem_cons_of_mem _ ha)
      cases hid : m.id with
      | none =>
          rw [snm_cons_none cid now pOk m rest seen hid]
          rcases List.mem_cons.mp hm' with rfl | h'
          · rw [hid] at hi; cases hi
          · exact ih seen hokrest m' h' i hi
      | some j =>
          by_cases hc : j ∈ seen
          · rw [snm_cons_seen cid now pOk m rest seen j hid hc]
            rcases List.mem_cons.mp hm' with rfl | h'
            · rw [hid] at hi
              cases hi
              exact snm_seen_mono cid now pOk rest seen i hc
            · exact ih seen hokrest m' h' i hi
          · by_cases hs : m.role = "system"
            · rw [snm_cons_system cid now pOk m rest seen j hid hc hs]
              rcases List.mem_cons.mp hm' with rfl | h'
              · rw [hid] at hi
                cases hi
                exact snm_seen_mono cid now pOk rest _ i (List.mem_cons_self _ _)
              · exact ih _ hokrest m' h' i hi
            · cases hok2 : pOk m with
              | true =>
                  rw [snm_cons_ok cid now pOk m rest seen j hid hc hs hok2]
                  rcases List.mem_cons.mp hm' with rfl | h'
                  · rw [hid] at hi
                    cases hi
                    exact snm_seen_mono cid now pOk rest _ i
                      (List.mem_cons_self _ _)
                  · exact ih _ hokrest m' h' i hi
              | false =>
                  exact absurd (hok m (List.mem_cons_self _ _))
                    (by simp [hok2])

/-- A pass over a stream whose every id is already seen makes no persist
call (and changes nothing). -/
theorem snm_all_seen_skip (cid : Nat) (now : String)
    (pOk : StreamMessage → Bool) :
    ∀ (l : List StreamMessage) (seen : List String),
      (∀ m ∈ l, ∀ i, m.id = some i → i ∈ seen) →
      saveNewMessages cid now pOk l seen =
        { seen := seen, attempted := [], persisted := [] } := by
  intro l
  induction l with
  | nil => intro seen _; exact snm_nil cid now pOk seen
  | cons m rest ih =>
      intro seen h
      have hrest : ∀ a ∈ rest, ∀ i, a.id = some i → i ∈ seen :=
        fun a ha => h a (List.mem_cons_of_mem _ ha)
      cases hid : m.id with
      | none =>
          rw [snm_cons_none cid now pOk m rest seen hid]
          exact ih seen hrest
      | some j =>
          have hc : j ∈ seen := h m (List.mem_cons_self _ _) j hid
          rw [snm_cons_seen cid now pOk m rest seen j hid hc]
          exact ih seen hrest

/-- A prefix whose every id is already seen is skipped entirely: the pass
behaves as a pass over the suffix alone. -/
theorem snm_skip_append (cid : Nat) (now : String)
    (pOk : StreamMessage → Bool) :
    ∀ (l1 l2 : List StreamMessage) (seen : List String),
      (∀ m ∈ l1, ∀ i, m.id = some i → i ∈ seen) →
      saveNewMessages cid now pOk (l1 ++ l2) seen =
        saveNewMessages cid now pOk l2 seen := by
  intro l1
  induction l1 with
  | nil => intro l2 seen _; rfl
  | cons m rest ih =>
      intro l2 seen h
      have hrest : ∀ a ∈ rest, ∀ i, a.id = some i → i ∈ seen :=
        fun a ha => h a (List.mem_cons_of_mem _ ha)
      cases hid : m.id with
      | none =>
          rw [List.cons_append, snm_cons_none cid now pOk m (rest ++ l2) seen hid]
          exact ih l2 seen hrest
      | some j =>
          have hc : j ∈ seen := h m (List.mem_cons_self _ _) j hid
          rw [List.cons_append, snm_cons_seen cid now pOk m (rest ++ l2) seen j hid hc]
          exact ih l2 seen hrest

/-- The messages a pass attempts to persist form a subsequence of the
stream: persistence follows stream order. -/
theorem snm_attempted_sublist (cid : Nat) (now : String)
    (pOk : StreamMessage → Bool) :
    ∀ (l : List StreamMessage) (seen : List String),
      (saveNewMessages cid now pOk l seen).attempted.Sublist l := by
  intro l
  induction l with
  | nil => intro seen; simp [snm_nil]
  | cons m rest ih =>
      intro seen
      cases hid : m.id with
      | none =>
          rw [snm_cons_none cid now pOk m rest seen hid]
          exact (ih seen).cons m
      | some j =>
          by_cases hc : j ∈ seen
          · rw [snm_cons_seen cid now pOk m rest seen j hid hc]
            exact (ih seen).cons m
          · by_cases hs : m.role = "system"
            · rw [snm_cons_system cid now pOk m rest seen j hid hc hs]
              exact (ih _).cons m
            · cases hok : pOk m with
              | true =>
                  rw [snm_cons_ok cid now pOk m rest seen j hid hc hs hok]
                  exact (ih _).cons₂ m
              | false =>
                  rw [snm_cons_fail cid now pOk m rest seen j hid hc hs hok]
                  exact (ih seen).cons₂ m

/-- A pass over a stream of entirely fresh, id-bearing, non-system
messages with all persists succeeding attempts and persists exactly the
stream, in order. -/
theorem snm_all_fresh (cid : Nat) (now : String)
    (pOk : StreamMessage → Bool) :
    ∀ (l : List StreamMessage) (seen : List String),
      (∀ m ∈ l, ∃ i, m.id = some i ∧ i ∉ seen ∧ m.role ≠ "system") →
      (l.filterMap (·.id)).Nodup →
      (∀ m ∈ l, pOk m = true) →
      (saveNewMessages cid now pOk l seen).attempted = l ∧
        (saveNewMessages cid now pOk l seen).persisted =
          l.filterMap (fun m => (m.id).map (mkPayload cid now m)) := by
  intro l
  induction l with
  | nil => intro seen _ _ _; simp [snm_nil]
  | cons m rest ih =>
      intro seen hfresh hnodup hok
      rcases hfresh m (List.mem_cons_self _ _) with ⟨j, hid, hjs, hrole⟩
      have hok1 : pOk m = true := hok m (List.mem_cons_self _ _)
      have hids : (m :: rest).filterMap (·.id) = j :: rest.filterMap (·.id) := by
        simp [List.filterMap_cons, hid]
      rw [hids] at hnodup
      have hnd := List.nodup_cons.mp hnodup
      have hfresh' : ∀ a ∈ rest, ∃ i, a.id = some i ∧ i ∉ j :: seen ∧
          a.role ≠ "system" := by
        intro a ha
        rcases hfresh a (List.mem_cons_of_mem _ ha) with ⟨i, hi, his, hr⟩
        refine ⟨i, hi, ?_, hr⟩
        intro hmem
        rcases List.mem_cons.mp hmem with rfl | h'
        · exact hnd.1 (List.mem_filterMap.mpr ⟨a, ha, hi⟩)
        · exact his h'
      have hokrest : ∀ a ∈ rest, pOk a = true :=
        fun a ha => hok a (List.mem_cons_of_mem _ ha)
      have hrec := ih (j :: seen) hfresh' hnd.2 hokrest
      rw [snm_cons_ok cid now pOk m rest seen j hid hjs hrole hok1]
      refine ⟨?_, ?_⟩
      · simpa using hrec.1
      · simp only [List.filterMap_cons, hid, Option.map_some]
        simpa using hrec.2

/-- C3: on the bridge's first activation for a conversation over a
non-empty stream, every currently-present stream message id is marked
seen, the snapshot phase is exited, and nothing is attempted or persisted;
a later pass over the stream with fresh messages appended persists exactly
the appended messages, in append order. -/
theorem bridge_snapshot_spec (cid : Nat) (now now2 : String)
    (pOk : StreamMessage → Bool) (stream new : List StreamMessage)
    (tr : Tracker) (hinit : tr.isInitialLoad = true) (hne : stream ≠ [])
    (hfresh : ∀ m ∈ new, ∃ i, m.id = some i ∧
        i ∉ tr.seen ++ stream.filterMap (·.id) ∧ m.role ≠ "system")
    (hnodup : (new.filterMap (·.id)).Nodup)
    (hok : ∀ m ∈ new, pOk m = true) :
    (bridgePass true (some cid) now pOk stream tr).attempted = [] ∧
    (bridgePass true (some cid) now pOk stream tr).persisted = [] ∧
    (bridgePass true (some cid) now pOk stream tr).tracker =
      { seen := tr.seen ++ stream.filterMap (·.id), isInitialLoad := false } ∧
    (bridgePass true (some cid) now2 pOk (stream ++ new)
        (bridgePass true (some cid) now pOk stream tr).tracker).attempted =
      new ∧
    (bridgePass true (some cid) now2 pOk (stream ++ new)
        (bridgePass true (some cid) now pOk stream tr).tracker).persisted =
      new.filterMap (fun m => (m.id).map (mkPayload cid now2 m)) := by
  have hie : stream.isEmpty = false := by
    cases stream with
    | nil => exact absurd rfl hne
    | cons a t => rfl
  have h1 : bridgePass true (some cid) now pOk stream tr =
      { tracker := { seen := tr.seen ++ stream.filterMap (·.id),
                     isInitialLoad := false },
        attempted := [], persisted := [] } := by
    simp [bridgePass, hie, hinit]
  have hie2 : (stream ++ new).isEmpty = false := by
    cases stream with
    | nil => exact absurd rfl hne
    | cons a t => rfl
  have hskip : ∀ m ∈ stream, ∀ i, m.id = some i →
      i ∈ tr.seen ++ stream.filterMap (·.id) := by
    intro m hm i hi
    exact List.mem_append.mpr (.inr (List.mem_filterMap.mpr ⟨m, hm, hi⟩))
  have h2 : bridgePass true (some cid) now2 pOk (stream ++ new)
      { seen := tr.seen ++ stream.filterMap (·.id), isInitialLoad := false } =
      { tracker := { seen := (saveNewMessages cid now2 pOk new
                        (tr.seen ++ stream.filterMap (·.id))).seen,
                     isInitialLoad := false },
        attempted := (saveNewMessages cid now2 pOk new
          (tr.seen ++ stream.filterMap (·.id))).attempted,
        persisted := (saveNewMessages cid now2 pOk new
          (tr.seen ++ stream.filterMap (·.id))).persisted } := by
    simp [bridgePass, hie2,
      snm_skip_append cid now2 pOk stream new _ hskip]
  have hres := snm_all_fresh cid now2 pOk new
    (tr.seen ++ stream.filterMap (·.id)) hfresh hnodup hok
  rw [h1, h2]
  exact ⟨rfl, rfl, rfl, hres.1, hres.2⟩

/-- C3 witness inputs: a stream of three already-loaded messages. -/
def demoStream : List StreamMessage :=
  [{ id := some "a", role := "user", content := "q1" },
   { id := some "b", role := "assistant", content := "r1" },
   { id := some "c", role := "user", content := "q2" }]

/-- C3 witness inputs: two messages appended after the snapshot. -/
def demoNew : List StreamMessage :=
  [{ id := some "d", role := "user", content := "q3" },
   { id := some "e", role := "assistant", content := "r3" }]

/-- A persist oracle under which every `createMessage` call succeeds. -/
def allOk : StreamMessage → Bool := fun _ => true

/-- C3 witness: activating the bridge on a thread whose stream already has
3 messages persists 0 on the first pass; the 2 messages appended afterward
are persisted on the next pass, in append order. -/
theorem bridge_snapshot_spec_witness :
    (bridgePass true (some 1) "T1" allOk demoStream resetTracker).attempted =
      [] ∧
    (bridgePass true (some 1) "T1" allOk demoStream resetTracker).persisted =
      [] ∧
    (bridgePass true (some 1) "T1" allOk demoStream resetTracker).tracker =
      { seen := resetTracker.seen ++ demoStream.filterMap (·.id),
        isInitialLoad := false } ∧
    (bridgePass true (some 1) "T2" allOk (demoStream ++ demoNew)
        (bridgePass true (some 1) "T1" allOk demoStream
          resetTracker).tracker).attempted = demoNew ∧
    (bridgePass true (some 1) "T2" allOk (demoStream ++ demoNew)
        (bridgePass true (some 1) "T1" allOk demoStream
          resetTracker).tracker).persisted =
      demoNew.filterMap (fun m => (m.id).map (mkPayload 1 "T2" m)) :=
  bridge_snapshot_spec 1 "T1" "T2" allOk demoStream demoNew resetTracker rfl
    (by decide)
    (by
      intro m hm
      rcases List.mem_cons.mp hm with rfl | hm
      · exact ⟨"d", rfl, by decide, by decide⟩
      rcases List.mem_cons.mp hm with rfl | hm
      · exact ⟨"e", rfl, by decide, by decide⟩
      cases hm)
    (by decide)
    (fun m _ => rfl)

/-- C4: a stream message whose id is already in the tracker's seen set is
never persisted (for any persist oracle and any pass), and replaying the
same stream with the tracker a fully-successful pass produced performs
zero persist calls. -/
theorem bridge_idempotent_replay (cid : Nat) (now now2 : String)
    (pOk : StreamMessage → Bool) (stream : List StreamMessage) (tr : Tracker)
    (hok : ∀ m ∈ stream, pOk m = true) :
    (∀ (pOk2 : StreamMessage → Bool) (now3 : String) (tr2 : Tracker)
        (m : StreamMessage) (i : String), m.id = some i → i ∈ tr2.seen →
        m ∉ (bridgePass true (some cid) now3 pOk2 stream tr2).attempted) ∧
    (bridgePass true (some cid) now2 pOk stream
        (bridgePass true (some cid) now pOk stream tr).tracker).attempted =
      [] := by
  constructor
  · intro pOk2 now3 tr2 m i hi hmem hcontra
    by_cases hie : stream.isEmpty
    · simp [bridgePass, hie] at hcontra
    · by_cases hinit : tr2.isInitialLoad
      · simp [bridgePass, hie, hinit] at hcontra
      · have heq : (bridgePass true (some cid) now3 pOk2 stream tr2).attempted
            = (saveNewMessages cid now3 pOk2 stream tr2.seen).attempted := by
          simp [bridgePass, hie, hinit]
        rw [heq] at hcontra
        exact snm_attempted_fresh cid now3 pOk2 stream tr2.seen m i
          hcontra hi hmem
  · by_cases hie : stream.isEmpty
    · simp [bridgePass, hie]
    · by_cases hinit : tr.isInitialLoad
      · have h1 : (bridgePass true (some cid) now pOk stream tr).tracker =
            { seen := tr.seen ++ stream.filterMap (·.id),
              isInitialLoad := false } := by
          simp [bridgePass, hie, hinit]
        rw [h1]
        have hskip : ∀ m ∈ stream, ∀ i, m.id = some i →
            i ∈ tr.seen ++ stream.filterMap (·.id) := by
          intro m hm i hi
          exact List.mem_append.mpr (.inr (List.mem_filterMap.mpr ⟨m, hm, hi⟩))
        simp [bridgePass, hie, snm_all_seen_skip cid now2 pOk stream _ hskip]
      · have h1 : (bridgePass true (some cid) now pOk stream tr).tracker =
            { seen := (saveNewMessages cid now pOk stream tr.seen).seen,
              isInitialLoad := tr.isInitialLoad } := by
          simp [bridgePass, hie, hinit]
        rw [h1]
        have hseen : ∀ m ∈ stream, ∀ i, m.id = some i →
            i ∈ (saveNewMessages cid now pOk stream tr.seen).seen :=
          fun m hm i hi => snm_all_seen_of_ok cid now pOk stream tr.seen
            hok m hm i hi
        simp [bridgePass, hie, hinit,
          snm_all_seen_skip cid now2 pOk stream _ hseen]

/-- C4 witness: a message whose id `"a"` is already tracked is not
persisted, and replaying `demoStream` with the tracker of a successful
pass performs zero persist calls. -/
theorem bridge_idempotent_replay_witness :
    ({ id := some "a", role := "user", content := "q1" } : StreamMessage) ∉
      (bridgePass true (some 1) "T3" allOk demoStream
        { seen := ["a"], isInitialLoad := false }).attempted ∧
    (bridgePass true (some 1) "T2" allOk demoStream
        (bridgePass true (some 1) "T1" allOk demoStream
          { seen := [], isInitialLoad := false }).tracker).attempted = [] :=
  ⟨(bridge_idempotent_replay 1 "T1" "T2" allOk demoStream
        { seen := [], isInitialLoad := false } (fun m _ => rfl)).1
      allOk "T3" { seen := ["a"], isInitialLoad := false }
      { id := some "a", role := "user", content := "q1" } "a" rfl
      (by decide),
   (bridge_idempotent_replay 1 "T1" "T2" allOk demoStream
        { seen := [], isInitialLoad := false } (fun m _ => rfl)).2⟩

/-- C5: in a pass, an unseen non-system message is always attempted; on a
failed persist its id is not added (and, when no later stream message
carries the same id, stays out of the final seen set, so a subsequent pass
retries it), while the rest of the stream is still processed from the same
seen set; on a successful persist the id is added and the payload is
persisted at its stream position; attempts always follow stream order. -/
theorem bridge_failed_persist_retry (cid : Nat) (now now2 : String)
    (pOk pOk2 : StreamMessage → Bool) (m : StreamMessage)
    (rest : List StreamMessage) (seen : List String) (i : String)
    (hid : m.id = some i) (hc : i ∉ seen) (hrole : m.role ≠ "system") :
    (pOk m = false →
      saveNewMessages cid now pOk (m :: rest) seen =
        { saveNewMessages cid now pOk rest seen with
            attempted :=
              m :: (saveNewMessages cid now pOk rest seen).attempted }) ∧
    (pOk m = true →
      saveNewMessages cid now pOk (m :: rest) seen =
        { saveNewMessages cid now pOk rest (i :: seen) with
            attempted :=
              m :: (saveNewMessages cid now pOk rest (i :: seen)).attempted,
            persisted := mkPayload cid now m i ::
              (saveNewMessages cid now pOk rest (i :: seen)).persisted }) ∧
    (pOk m = false → (∀ m' ∈ rest, m'.id ≠ some i) →
      i ∉ (saveNewMessages cid now pOk (m :: rest) seen).seen) ∧
    (∀ (l : List StreamMessage) (sn : List String),
      (saveNewMessages cid now pOk l sn).attempted.Sublist l) ∧
    (pOk m = false → (∀ m' ∈ rest, m'.id ≠ some i) →
      m ∈ (saveNewMessages cid now2 pOk2 (m :: rest)
        ((saveNewMessages cid now pOk (m :: rest) seen).seen)).attempted) := by
  have hnotin : (∀ m' ∈ rest, m'.id ≠ some i) → (hok : pOk m = false) →
      i ∉ (saveNewMessages cid now pOk (m :: rest) seen).seen := by
    intro hrest hok hmem
    rw [snm_cons_fail cid now pOk m rest seen i hid hc hrole hok] at hmem
    rcases snm_seen_subset cid now pOk rest seen i hmem with h' | h'
    · exact hc h'
    · rcases List.mem_filterMap.mp h' with ⟨a, ha, hai⟩
      exact hrest a ha hai
  refine ⟨fun hok => snm_cons_fail cid now pOk m rest seen i hid hc hrole hok,
    fun hok => snm_cons_ok cid now pOk m rest seen i hid hc hrole hok,
    fun hok hrest => hnotin hrest hok,
    fun l sn => snm_attempted_sublist cid now pOk l sn,
    ?_⟩
  intro hok hrest
  have hfresh : i ∉ (saveNewMessages cid now pOk (m :: rest) seen).seen :=
    hnotin hrest hok
  cases hok2 : pOk2 m with
  | true =>
      rw [snm_cons_ok cid now2 pOk2 m rest _ i hid hfresh hrole hok2]
      exact List.mem_cons_self _ _
  | false =>
      rw [snm_cons_fail cid now2 pOk2 m rest _ i hid hfresh hrole hok2]
      exact List.mem_cons_self _ _

/-- A persist oracle that succeeds only on assistant-role messages (so the
user message below fails to persist). -/
def okAssistantOnly : StreamMessage → Bool := fun msg => msg.role == "assistant"

/-- C5 witness: with a failing persist for the user message `"a"` and a
succeeding one for the assistant message `"b"`, the failed id stays out of
the seen set and the next pass attempts the failed message again. -/
theorem bridge_failed_persist_retry_witness :
    "a" ∉ (saveNewMessages 1 "T1" okAssistantOnly
        [{ id := some "a", role := "user", content := "hello" },
         { id := some "b", role := "assistant", content := "yo" }] []).seen ∧
    ({ id := some "a", role := "user", content := "hello" } : StreamMessage) ∈
      (saveNewMessages 1 "T2" allOk
        [{ id := some "a", role := "user", content := "hello" },
         { id := some "b", role := "assistant", content := "yo" }]
        ((saveNewMessages 1 "T1" okAssistantOnly
          [{ id := some "a", role := "user", content := "hello" },
           { id := some "b", role := "assistant", content := "yo" }]
          []).seen)).attempted :=
  ⟨(bridge_failed_persist_retry 1 "T1" "T2" okAssistantOnly allOk
      { id := some "a", role := "user", content := "hello" }
      [{ id := some "b", role := "assistant", content := "yo" }] [] "a"
      rfl (by decide) (by decide)).2.2.1 rfl
      (by
        intro m' hm'
        rcases List.mem_cons.mp hm' with rfl | hm'
        · decide
        · cases hm'),
   (bridge_failed_persist_retry 1 "T1" "T2" okAssistantOnly allOk
      { id := some "a", role := "user", content := "hello" }
      [{ id := some "b", role := "assistant", content := "yo" }] [] "a"
      rfl (by decide) (by decide)).2.2.2.2 rfl
      (by
        intro m' hm'
        rcases List.mem_cons.mp hm' with rfl | hm'
        · decide
        · cases hm')⟩

/-- In a list with pairwise-distinct thread ids, looking a member's thread
id up finds exactly that member. -/
theorem find?_thread_id_eq :
    ∀ (l : List Conversation) (r : Conversation), r ∈ l →
      (l.map (·.thread_id)).Nodup →
      l.find? (fun c => c.thread_id == r.thread_id) = some r := by
  intro l
  induction l with
  | nil => intro r h; cases h
  | cons a t ih =>
      intro r hr hnd
      have hnd2 : (a.thread_id :: t.map (·.thread_id)).Nodup := by
        rw [List.map_cons] at hnd
        exact hnd
      have hnd' := List.nodup_cons.mp hnd2
      rcases List.mem_cons.mp hr with rfl | hr'
      · exact List.find?_cons_of_pos _ (by simp)
      · have hne : (a.thread_id == r.thread_id) = false := by
          have hx : a.thread_id ≠ r.thread_id := by
            intro heq
            exact hnd'.1 (heq ▸ List.mem_map.mpr ⟨r, hr', rfl⟩)
          simp [hx]
        rw [List.find?_cons_of_neg _ (by simp [hne])]
        exact ih r hr' hnd'.2

/-- C8: after the delete flow removes the current conversation, if the
render-time list minus the deleted entry is non-empty the flow makes no
create call and selects its head (the most-recently-known remaining
conversation) as current; if it is empty the flow makes exactly one
create-conversation store call. -/
theorem handleDelete_fallback (conversationId : Nat) (created : Conversation)
    (reloaded : List Conversation) (msgs : List Message) (s : SessionState)
    (d : Conversation)
    (hfind : s.conversations.find? (fun c =>
        c.conversation_id == conversationId &&
          some c.thread_id == s.currentThreadId) = some d)
    (hnodup : (s.conversations.map (·.thread_id)).Nodup) :
    (∀ (r : Conversation) (rem : List Conversation),
      s.conversations.filter (fun c => c.conversation_id != conversationId) =
          r :: rem →
      (handleDeleteConversation true conversationId created reloaded msgs
          s).2 = 0 ∧
      (handleDeleteConversation true conversationId created reloaded msgs
          s).1.currentConversation = some r ∧
      (handleDeleteConversation true conversationId created reloaded msgs
          s).1.currentThreadId = some r.thread_id) ∧
    (s.conversations.filter (fun c => c.conversation_id != conversationId) =
        [] →
      (handleDeleteConversation true conversationId created reloaded msgs
          s).2 = 1) := by
  constructor
  · intro r rem hfilter
    have hrmem : r ∈ s.conversations :=
      List.mem_of_mem_filter (hfilter ▸ List.mem_cons_self r rem)
    have hsel := find?_thread_id_eq s.conversations r hrmem hnodup
    simp only [handleDeleteConversation, hfind, hfilter]
    simp [selectConversation, hsel]
  · intro hfilter
    simp [handleDeleteConversation, hfind, hfilter]

/-- A second stored conversation, used as the delete-fallback target. -/
def sampleConv2 : Conversation :=
  { conversation_id := 2, user_id := 7, title := "Second", thread_id := "t2",
    created_at := "c", updated_at := "u", is_active := true }

/-- The conversation the store returns when the delete flow auto-creates. -/
def sampleConv3 : Conversation :=
  { conversation_id := 3, user_id := 7, title := "New Conversation",
    thread_id := "t3", created_at := "c", updated_at := "u", is_active := true }

/-- A session with two conversations, the first being current. -/
def twoConvState : SessionState :=
  { conversations := [sampleConv, sampleConv2],
    currentConversation := some sampleConv, currentThreadId := some "t1",
    messages := [], isLoading := false, error := none }

/-- C8 witness: deleting the current conversation with one other remaining
selects that one and creates nothing; deleting the last conversation makes
exactly one create call. -/
theorem handleDelete_fallback_witness :
    (handleDeleteConversation true 1 sampleConv3 [sampleConv3] []
        twoConvState).2 = 0 ∧
    (handleDeleteConversation true 1 sampleConv3 [sampleConv3] []
        twoConvState).1.currentConversation = some sampleConv2 ∧
    (handleDeleteConversation true 1 sampleConv3 [sampleConv3] []
        twoConvState).1.currentThreadId = some "t2" ∧
    (handleDeleteConversation true 1 sampleConv3 [sampleConv3] []
        sampleState).2 = 1 := by
  have hA := (handleDelete_fallback 1 sampleConv3 [sampleConv3] []
      twoConvState sampleConv (by decide) (by decide)).1 sampleConv2
      [] (by decide)
  have hB := (handleDelete_fallback 1 sampleConv3 [sampleConv3] []
      sampleState sampleConv (by decide) (by decide)).2 (by decide)
  exact ⟨hA.1, hA.2.1, hA.2.2, hB⟩

end HRGuide
